import Mathlib

/-!
# Verification of the e-commerce fake-listing detector's scoring route

Shallow embedding of `app/api/analyze/route.ts`: the heuristic engine
`generateMockAnalysis`, the remote-backend wrapper `callMLService`, and the
`POST` handler with its input validation.

Modelling conventions:
* JavaScript numbers are modelled as exact rationals (`ℚ`); the spec's data
  model declares `price` "a finite number", and all constants involved
  (0.1, 0.15, 0.2, 0.4, 0.7, 4.9) are exact decimals.
* The wall-clock timestamp (`new Date().toISOString()`) is passed in as an
  explicit `now : String` parameter, making the engine a pure function.
* JSON values reaching the handler are modelled by `JsVal` (string, number,
  boolean, null, array of strings); an absent field is `Option.none`
  (JavaScript `undefined`). Object lookups are modelled as own-key lookups.
* The remote ML service's network behaviour is an explicit `RemoteOutcome`
  parameter: a response with a status code and parsed body, or a transport
  failure (which also covers the 5-second timeout abort — real time is not
  modelled, only the resulting rejected fetch).
-/

/-- A JSON scalar or array of strings, as it appears in a parsed request
body.  Arrays of non-strings and nested objects in scalar positions are
outside the modelled domain; only the `images` field is ever read as an
array, and only its length is used. -/
inductive JsVal where
  | vstr (s : String)
  | vnum (q : ℚ)
  | vbool (b : Bool)
  | vnull
  | varr (l : List String)
deriving DecidableEq

/-- Verdict label of an analysis. -/
inductive Label where
  | safe
  | suspicious
  | high_risk
deriving DecidableEq

/-- One entry of the explanation list returned by the engine. -/
structure FeatureContribution where
  feature : String
  contribution : ℚ
deriving DecidableEq

/-- The `AnalysisResult` interface of `route.ts`. -/
structure AnalysisResult where
  score : ℚ
  label : Label
  explanation : List FeatureContribution
  model_version : String
  timestamp : String
deriving DecidableEq

/-- A listing as consumed by the heuristic engine.  `images` keeps its raw
JSON value (`none` = absent) because the source inspects it with
`Array.isArray`.  `description` and `country` are carried for fidelity to
the data model but are never read by the engine. -/
structure Listing where
  title : String
  description : String := ""
  price : ℚ
  seller : String
  rating : ℚ
  review_count : ℚ
  category : String := ""
  country : String := ""
  images : Option JsVal := none
deriving DecidableEq

/-- JavaScript `Math.min` on two numbers (NaN never arises in the modelled
rational domain). -/
def mathMin (a b : ℚ) : ℚ := if a ≤ b then a else b

/-- JavaScript `Math.abs`. -/
def mathAbs (a : ℚ) : ℚ := if a < 0 then -a else a

/-- ASCII lower-casing of one character.  JavaScript `toLowerCase` agrees
with this on the ASCII range; the vocabularies matched against are ASCII. -/
def charToLower (c : Char) : Char :=
  if 'A' ≤ c ∧ c ≤ 'Z' then Char.ofNat (c.toNat + 32) else c

/-- JavaScript `String.prototype.toLowerCase`, restricted to ASCII casing. -/
def jsToLower (s : String) : String := String.mk (s.toList.map charToLower)

/-- JavaScript `String.prototype.includes`: substring containment (the empty
string is contained in every string). -/
def jsIncludes (s w : String) : Bool :=
  s.toList.tails.any fun t => w.toList.isPrefixOf t

/-- The fixed suspicious-word vocabulary of the engine. -/
def suspiciousWords : List String :=
  ["free", "wow", "amazing", "limited", "urgent", "exclusive", "fake", "replica"]

/-- The fixed generic-seller-name vocabulary of the engine. -/
def genericNames : List String := ["seller", "shop", "store", "mall"]

/-- `const wordMatches = suspiciousWords.filter((w) => title.includes(w)).length`
where `title = (data.title || "").toLowerCase()` (on a string, `|| ""` is the
identity: it only replaces the empty string by itself). -/
def wordMatches (data : Listing) : ℕ :=
  (suspiciousWords.filter fun w => jsIncludes (jsToLower data.title) w).length

/-- `categoryRanges[data.category] || [1, 10000]`: the fixed category price
table with its default range for unknown categories. -/
def categoryRanges (category : String) : ℚ × ℚ :=
  if category = "electronics" then (200, 2000)
  else if category = "clothing" then (10, 200)
  else if category = "jewelry" then (50, 5000)
  else if category = "watches" then (100, 10000)
  else if category = "books" then (5, 50)
  else (1, 10000)

/-- `const medianPrice = (range[0] + range[1]) / 2`. -/
def medianPrice (data : Listing) : ℚ :=
  ((categoryRanges data.category).1 + (categoryRanges data.category).2) / 2

/-- `const priceDeviation = Math.abs(data.price - medianPrice) / medianPrice`. -/
def priceDeviation (data : Listing) : ℚ :=
  mathAbs (data.price - medianPrice data) / medianPrice data

/-- `genericNames.some((n) => seller.includes(n))` with
`seller = (data.seller || "").toLowerCase()`. -/
def sellerFlag (data : Listing) : Bool :=
  genericNames.any fun n => jsIncludes (jsToLower data.seller) n

/-- `const imageCount = data.images && Array.isArray(data.images) ? data.images.length : 0`:
an absent field or any non-array value (truthy or falsy) yields 0. -/
def imageCount (data : Listing) : ℕ :=
  match data.images with
  | some (.varr l) => l.length
  | _ => 0

/-- Score contribution of the suspicious-word extractor:
`suspiciousness += wordMatches * 0.15`. -/
def wordsContribution (data : Listing) : ℚ := wordMatches data * 0.15

/-- Score contribution of the price-deviation extractor:
`suspiciousness += Math.min(priceDeviation * 0.2, 0.2)`. -/
def priceContribution (data : Listing) : ℚ :=
  mathMin (priceDeviation data * 0.2) 0.2

/-- Score contribution of the perfect-rating/low-review extractor:
`if (data.rating >= 4.9 && data.review_count < 10) suspiciousness += 0.15`. -/
def ratingContribution (data : Listing) : ℚ :=
  if 4.9 ≤ data.rating ∧ data.review_count < 10 then 0.15 else 0

/-- Score contribution of the zero-review check:
`if (data.review_count === 0) suspiciousness += 0.1`. -/
def zeroReviewsContribution (data : Listing) : ℚ :=
  if data.review_count = 0 then 0.1 else 0

/-- Score contribution of the generic-seller-name extractor:
`if (genericNames.some((n) => seller.includes(n))) suspiciousness += 0.1`. -/
def sellerContribution (data : Listing) : ℚ :=
  if sellerFlag data then 0.1 else 0

/-- Score contribution of the image-count extractor:
`if (imageCount === 0) suspiciousness += 0.1`. -/
def noImagesContribution (data : Listing) : ℚ :=
  if imageCount data = 0 then 0.1 else 0

/-- The accumulated `suspiciousness` variable: the sum of the six
`suspiciousness +=` statements of `generateMockAnalysis`. -/
def suspiciousness (data : Listing) : ℚ :=
  wordsContribution data + priceContribution data + ratingContribution data +
    zeroReviewsContribution data + sellerContribution data + noImagesContribution data

/-- `const score = Math.min(suspiciousness, 1)`. -/
def score (data : Listing) : ℚ := mathMin (suspiciousness data) 1

/-- The five explanation records built by `generateMockAnalysis`, in source
order, before the positivity filter.  Note the display caps `Math.min(·, 1)`
on the first two entries, as in the source. -/
def explanationEntries (data : Listing) : List FeatureContribution :=
  [⟨"price_deviation_from_median", mathMin (priceDeviation data * 0.2) 1⟩,
   ⟨"suspicious_words_in_title", mathMin (wordMatches data * 0.15) 1⟩,
   ⟨"perfect_rating_low_reviews",
     if 4.9 ≤ data.rating ∧ data.review_count < 10 then 0.15 else 0⟩,
   ⟨"no_images", if imageCount data = 0 then 0.1 else 0⟩,
   ⟨"generic_seller_name", if sellerFlag data then 0.1 else 0⟩]

/-- The heuristic engine `generateMockAnalysis` of `route.ts`, with the
wall-clock time passed in as `now`. -/
def generateMockAnalysis (data : Listing) (now : String) : AnalysisResult :=
  { score := score data
    label :=
      if score data < 0.4 then .safe
      else if score data < 0.7 then .suspicious
      else .high_risk
    explanation := (explanationEntries data).filter fun e => 0 < e.contribution
    model_version := "v0.1-mock"
    timestamp := now }

/-- Outcome of the `fetch` to the remote scoring service: a response with a
status code and a parsed `AnalysisResult` body, or a rejected fetch —
network/transport error or the 5-second timeout abort.  A 2xx response whose
body fails to parse as JSON also lands in `failure`: the inner `catch`
recovers it identically. -/
inductive RemoteOutcome where
  | response (status : ℕ) (body : AnalysisResult)
  | failure
deriving DecidableEq

/-- `callMLService` of `route.ts` over a typed listing: a 2xx (`response.ok`)
response is returned as-is; a non-2xx response or any rejection falls back to
`generateMockAnalysis`. -/
def callMLService (data : Listing) (now : String) : RemoteOutcome → AnalysisResult
  | .response status body =>
      if 200 ≤ status ∧ status ≤ 299 then body else generateMockAnalysis data now
  | .failure => generateMockAnalysis data now

/-- The fallback-triggering situations: a non-2xx response (`!response.ok`)
or a transport failure / timeout. -/
def backendFailure : RemoteOutcome → Prop
  | .response status _ => ¬(200 ≤ status ∧ status ≤ 299)
  | .failure => True

/-- Modelled from the spec: the remote scoring backend (the FastAPI
`POST /infer` service of §4.4) is not part of this repository's source tree;
the repository README documents its response carrying
`"model_version": "v0.1"` — the provenance tag callers use to distinguish
authoritative model output from the heuristic engine's `"v0.1-mock"`. -/
def remoteModelVersion : String := "v0.1"

/-- A parsed JSON request body, field by field; `none` is an absent field
(JavaScript `undefined`). -/
structure RequestBody where
  title : Option JsVal := none
  description : Option JsVal := none
  price : Option JsVal := none
  seller : Option JsVal := none
  rating : Option JsVal := none
  review_count : Option JsVal := none
  category : Option JsVal := none
  country : Option JsVal := none
  images : Option JsVal := none
deriving DecidableEq

/-- JavaScript truthiness of a field value: `undefined`, `null`, `false`,
`0` and `""` are falsy; everything else (arrays included) is truthy. -/
def jsTruthy : Option JsVal → Bool
  | none => false
  | some (.vstr s) => !(s == "")
  | some (.vnum q) => !(q == 0)
  | some (.vbool b) => b
  | some .vnull => false
  | some (.varr _) => true

/-- `typeof x === "number"` for a field value. -/
def typeofNumber : Option JsVal → Bool
  | some (.vnum _) => true
  | _ => false

/-- JavaScript `ToNumber` of a string, with `none` for NaN.  Modelled
exactly for the empty string (0) and unsigned decimal-digit strings; all
other strings are mapped to NaN.  (Signed, fractional, hexadecimal or
whitespace-padded numeric strings are a divergence of the model; no theorem
below evaluates the coercion on such a string.) -/
def strToNumber (s : String) : Option ℚ :=
  if s.toList = [] then some 0
  else if s.toList.all fun c => c.isDigit then
    some ((s.toList.foldl (fun a c => 10 * a + (c.toNat - 48)) 0 : ℕ) : ℚ)
  else none

/-- JavaScript `ToNumber` of a defined JSON value; `none` is NaN. -/
def jsToNumber : JsVal → Option ℚ
  | .vnum q => some q
  | .vstr s => strToNumber s
  | .vbool b => some (if b then 1 else 0)
  | .vnull => some 0
  | .varr [] => some 0
  | .varr [s] => strToNumber s
  | .varr (_ :: _ :: _) => none

/-- `x >= c` in JavaScript for a field value `x` and number literal `c`:
both sides are coerced via `ToNumber` (`undefined` gives NaN) and any
comparison involving NaN is false. -/
def jsGE (v : Option JsVal) (c : ℚ) : Bool :=
  match v with
  | none => false
  | some x =>
      match jsToNumber x with
      | some q => decide (c ≤ q)
      | none => false

/-- `x < c` in JavaScript for a field value `x` and number literal `c`. -/
def jsLT (v : Option JsVal) (c : ℚ) : Bool :=
  match v with
  | none => false
  | some x =>
      match jsToNumber x with
      | some q => decide (q < c)
      | none => false

/-- Strict equality `x === 0`: no coercion, so only the number 0 passes. -/
def jsStrictEqZero (v : Option JsVal) : Bool :=
  match v with
  | some (.vnum q) => decide (q = 0)
  | _ => false

/-- `(x || "")` as used before `.toLowerCase()`: falsy values give `""`,
strings give the string itself, and a truthy non-string survives `|| ""`
only for `.toLowerCase()` to throw a TypeError — modelled as `none`. -/
def jsOrEmptyString : Option JsVal → Option String
  | none => some ""
  | some (.vstr s) => some s
  | some (.vnum q) => if q == 0 then some "" else none
  | some (.vbool b) => if b then none else some ""
  | some .vnull => some ""
  | some (.varr _) => none

/-- Key used for the `categoryRanges[data.category]` lookup: only a string
value can match one of the table's own keys; any other defined value
coerces to a property name (`"5"`, `"true"`, `"null"`, an array join) that
is not in the table, as is `undefined` — all fall to the default range.
Non-string values are therefore mapped to `""`, which is not a table key. -/
def categoryLookupKey : Option JsVal → String
  | some (.vstr s) => s
  | _ => ""

/-- `generateMockAnalysis` as invoked by the route on the raw parsed body.
`none` models a thrown TypeError: `(x || "").toLowerCase()` throws when
`title` or `seller` is a truthy non-string.  A body whose `price` is not a
number would propagate NaN through the score in JavaScript, which the
rational model cannot represent; that case is also mapped to `none` and is
unreachable from `POST`, whose validation admits only a numeric `price`. -/
def generateMockAnalysisJs (data : RequestBody) (now : String) : Option AnalysisResult :=
  match jsOrEmptyString data.title, jsOrEmptyString data.seller, data.price with
  | some titleRaw, some sellerRaw, some (.vnum price) =>
    let title := jsToLower titleRaw
    let wm := (suspiciousWords.filter fun w => jsIncludes title w).length
    let range := categoryRanges (categoryLookupKey data.category)
    let median := (range.1 + range.2) / 2
    let pd := mathAbs (price - median) / median
    let seller := jsToLower sellerRaw
    let sellerHit := genericNames.any fun n => jsIncludes seller n
    let ic : ℕ := match data.images with | some (.varr l) => l.length | _ => 0
    let ratingHit := jsGE data.rating 4.9 && jsLT data.review_count 10
    let zeroHit := jsStrictEqZero data.review_count
    let susp := wm * 0.15 + mathMin (pd * 0.2) 0.2 + (if ratingHit then 0.15 else 0) +
      (if zeroHit then 0.1 else 0) + (if sellerHit then 0.1 else 0) +
      (if ic = 0 then 0.1 else 0)
    let sc := mathMin susp 1
    some
      { score := sc
        label := if sc < 0.4 then .safe else if sc < 0.7 then .suspicious else .high_risk
        explanation :=
          ([⟨"price_deviation_from_median", mathMin (pd * 0.2) 1⟩,
            ⟨"suspicious_words_in_title", mathMin (wm * 0.15) 1⟩,
            ⟨"perfect_rating_low_reviews", if ratingHit then 0.15 else 0⟩,
            ⟨"no_images", if ic = 0 then 0.1 else 0⟩,
            ⟨"generic_seller_name", if sellerHit then 0.1 else 0⟩].filter
            fun e => 0 < e.contribution)
        model_version := "v0.1-mock"
        timestamp := now }
  | _, _, _ => none

/-- `callMLService` as invoked by the route on the raw body; `none`
propagates a TypeError thrown by the fallback engine (caught by `POST`'s
outer handler). -/
def callMLServiceJs (data : RequestBody) (now : String) : RemoteOutcome → Option AnalysisResult
  | .response status body =>
      if 200 ≤ status ∧ status ≤ 299 then some body else generateMockAnalysisJs data now
  | .failure => generateMockAnalysisJs data now

/-- The three response shapes the handler produces. -/
inductive HttpResponse where
  | ok (result : AnalysisResult)
  | badRequest (error : String)
  | internalError (error : String)
deriving DecidableEq

/-- The `POST` handler of `route.ts` on a successfully parsed JSON body:
the validation test is the source's
`!body.title || typeof body.price !== "number" || !body.seller ||
body.rating === undefined || body.review_count === undefined`;
a thrown error from the scoring path lands in the outer catch (500). -/
def POST (body : RequestBody) (now : String) (outcome : RemoteOutcome) : HttpResponse :=
  if !jsTruthy body.title || !typeofNumber body.price || !jsTruthy body.seller
      || body.rating.isNone || body.review_count.isNone then
    .badRequest "Missing or invalid required fields"
  else
    match callMLServiceJs body now outcome with
    | some result => .ok result
    | none => .internalError "Internal server error"

/-- The explanation ordering stated by the spec (§4.3), written from the
spec's words: contributions weakly descending along the list. -/
def sortedByContributionDesc (l : List FeatureContribution) : Prop :=
  l.Pairwise fun a b => b.contribution ≤ a.contribution

/-- The extractor-declaration order of the five feature identifiers, as they
appear in the source's explanation array. -/
def declaredFeatureOrder : List String :=
  ["price_deviation_from_median", "suspicious_words_in_title",
   "perfect_rating_low_reviews", "no_images", "generic_seller_name"]

/-- A benign median-priced electronics listing triggering no extractor. -/
def benignListing : Listing :=
  { title := "Nice Phone", price := 1100, seller := "Bob", rating := 4.8,
    review_count := 5234, category := "electronics", images := some (.varr ["x.jpg"]) }

/-- Spec §8 concrete scenario 4: the empty/default listing with no reviews,
no images and an unknown category. -/
def emptyListing : Listing :=
  { title := "", price := 0, seller := "", rating := 0, review_count := 0,
    category := "misc", images := some (.varr []) }

/-- A listing whose first retained explanation entry (price deviation, 0.05)
is smaller than the second (suspicious word, 0.15). -/
def unsortedListing : Listing :=
  { title := "free shipping", price := 825, seller := "Bob", rating := 4,
    review_count := 100, category := "electronics", images := some (.varr ["a"]) }

/-- A perfect-rating, zero-review listing with no other signal firing. -/
def perfectRatingListing : Listing :=
  { title := "Widget", price := 1100, seller := "Bob", rating := 5,
    review_count := 0, category := "electronics", images := some (.varr ["a"]) }

/-- Spec §8 concrete scenario 3: a clothing listing priced far above the
category median, with a generic seller name. -/
def overpricedListing : Listing :=
  { title := "Generic Widget", price := 50000, seller := "Shop", rating := 4,
    review_count := 100, category := "clothing", images := some (.varr ["a", "b"]) }

/-- A title containing all eight vocabulary words. -/
def allWordsListing : Listing :=
  { title := "free wow amazing limited urgent exclusive fake replica",
    price := 1100, seller := "Bob", rating := 4, review_count := 100,
    category := "electronics", images := some (.varr ["a"]) }

/-- A listing whose `images` field holds a string rather than an array. -/
def stringImagesListing : Listing :=
  { title := "Nice Phone", price := 1100, seller := "Bob", rating := 4.8,
    review_count := 5234, category := "electronics", images := some (.vstr "x.jpg") }

/-- A request body whose required `rating` field is present but wrong-typed
(a string): the route's validation only tests `rating === undefined`. -/
def wrongTypedRatingBody : RequestBody :=
  { title := some (.vstr "Nice Phone"), price := some (.vnum 1100),
    seller := some (.vstr "Bob"), rating := some (.vstr "n/a"),
    review_count := some (.vnum 5), category := some (.vstr "electronics"),
    images := some (.varr ["a"]) }

/-- A request body missing its required `rating` field. -/
def missingRatingBody : RequestBody :=
  { title := some (.vstr "Nice Phone"), price := some (.vnum 1100),
    seller := some (.vstr "Bob"), review_count := some (.vnum 5) }

/-- A fully well-typed valid request body. -/
def validBodyExample : RequestBody :=
  { title := some (.vstr "Nice Phone"), price := some (.vnum 1100),
    seller := some (.vstr "Bob"), rating := some (.vnum 4.8),
    review_count := some (.vnum 5234), category := some (.vstr "electronics"),
    images := some (.varr ["a"]) }

theorem mathMin_le_right (a b : ℚ) : mathMin a b ≤ b := by
  unfold mathMin
  split_ifs with h
  · exact h
  · exact le_rfl

theorem mathMin_nonneg {a b : ℚ} (ha : 0 ≤ a) (hb : 0 ≤ b) : 0 ≤ mathMin a b := by
  unfold mathMin
  split_ifs <;> assumption

theorem mathAbs_nonneg (a : ℚ) : 0 ≤ mathAbs a := by
  unfold mathAbs
  split_ifs with h <;> linarith

theorem medianPrice_pos (d : Listing) : 0 < medianPrice d := by
  unfold medianPrice categoryRanges
  split_ifs <;> norm_num

theorem priceDeviation_nonneg (d : Listing) : 0 ≤ priceDeviation d := by
  unfold priceDeviation
  exact div_nonneg (mathAbs_nonneg _) (le_of_lt (medianPrice_pos d))

theorem wordsContribution_nonneg (d : Listing) : 0 ≤ wordsContribution d := by
  unfold wordsContribution
  exact mul_nonneg (Nat.cast_nonneg _) (by norm_num)

theorem priceContribution_nonneg (d : Listing) : 0 ≤ priceContribution d := by
  unfold priceContribution
  exact mathMin_nonneg (mul_nonneg (priceDeviation_nonneg d) (by norm_num)) (by norm_num)

theorem ratingContribution_nonneg (d : Listing) : 0 ≤ ratingContribution d := by
  unfold ratingContribution
  split_ifs <;> norm_num

theorem zeroReviewsContribution_nonneg (d : Listing) : 0 ≤ zeroReviewsContribution d := by
  unfold zeroReviewsContribution
  split_ifs <;> norm_num

theorem sellerContribution_nonneg (d : Listing) : 0 ≤ sellerContribution d := by
  unfold sellerContribution
  split_ifs <;> norm_num

theorem noImagesContribution_nonneg (d : Listing) : 0 ≤ noImagesContribution d := by
  unfold noImagesContribution
  split_ifs <;> norm_num

theorem suspiciousness_nonneg (d : Listing) : 0 ≤ suspiciousness d := by
  unfold suspiciousness
  have h1 := wordsContribution_nonneg d
  have h2 := priceContribution_nonneg d
  have h3 := ratingContribution_nonneg d
  have h4 := zeroReviewsContribution_nonneg d
  have h5 := sellerContribution_nonneg d
  have h6 := noImagesContribution_nonneg d
  linarith

theorem score_nonneg (d : Listing) : 0 ≤ score d := by
  unfold score
  exact mathMin_nonneg (suspiciousness_nonneg d) (by norm_num)

theorem score_le_one (d : Listing) : score d ≤ 1 := by
  unfold score
  exact mathMin_le_right _ _

theorem priceContribution_le_cap (d : Listing) : priceContribution d ≤ 0.2 := by
  unfold priceContribution
  exact mathMin_le_right _ _

theorem ratingContribution_le_cap (d : Listing) : ratingContribution d ≤ 0.15 := by
  unfold ratingContribution
  split_ifs <;> norm_num

theorem zeroReviewsContribution_le_cap (d : Listing) : zeroReviewsContribution d ≤ 0.1 := by
  unfold zeroReviewsContribution
  split_ifs <;> norm_num

theorem sellerContribution_le_cap (d : Listing) : sellerContribution d ≤ 0.1 := by
  unfold sellerContribution
  split_ifs <;> norm_num

theorem noImagesContribution_le_cap (d : Listing) : noImagesContribution d ≤ 0.1 := by
  unfold noImagesContribution
  split_ifs <;> norm_num

theorem wordMatches_le_eight (d : Listing) : wordMatches d ≤ 8 := by
  unfold wordMatches
  calc (suspiciousWords.filter fun w => jsIncludes (jsToLower d.title) w).length
      ≤ suspiciousWords.length := List.length_filter_le _ _
    _ = 8 := rfl

theorem wordsContribution_le_vocab_cap (d : Listing) : wordsContribution d ≤ 1.2 := by
  unfold wordsContribution
  have h : (wordMatches d : ℚ) ≤ 8 := by exact_mod_cast wordMatches_le_eight d
  calc (wordMatches d : ℚ) * 0.15 ≤ 8 * 0.15 :=
        mul_le_mul_of_nonneg_right h (by norm_num)
    _ = 1.2 := by norm_num

theorem explanation_features_sublist (d : Listing) (now : String) :
    ((generateMockAnalysis d now).explanation.map fun e => e.feature).Sublist
      declaredFeatureOrder := by
  have h : ((explanationEntries d).filter fun e => 0 < e.contribution).Sublist
      (explanationEntries d) := List.filter_sublist _
  have h2 := h.map fun e => e.feature
  simpa [generateMockAnalysis, explanationEntries, declaredFeatureOrder] using h2

theorem explanation_contribution_pos (d : Listing) (now : String) :
    ∀ e ∈ (generateMockAnalysis d now).explanation, 0 < e.contribution := by
  intro e he
  have h : (generateMockAnalysis d now).explanation =
      (explanationEntries d).filter fun e => 0 < e.contribution := rfl
  rw [h] at he
  simpa using (List.mem_filter.mp he).2

theorem score_benignListing : score benignListing = 0 := by
  have hw : wordMatches benignListing = 0 := by decide
  have hsf : sellerFlag benignListing = false := by decide
  have hic : imageCount benignListing = 1 := rfl
  have hcr : categoryRanges benignListing.category = (200, 2000) := by decide
  have hpd : priceDeviation benignListing = 0 := by
    rw [priceDeviation, medianPrice, hcr, show benignListing.price = 1100 from rfl]
    norm_num [mathAbs]
  rw [score, suspiciousness, wordsContribution, priceContribution, ratingContribution,
    zeroReviewsContribution, sellerContribution, noImagesContribution, hw, hsf, hic, hpd,
    show benignListing.rating = 4.8 from rfl,
    show benignListing.review_count = 5234 from rfl]
  norm_num [mathMin]

theorem score_emptyListing : score emptyListing = 2/5 := by
  have hw : wordMatches emptyListing = 0 := by decide
  have hsf : sellerFlag emptyListing = false := by decide
  have hic : imageCount emptyListing = 0 := rfl
  have hcr : categoryRanges emptyListing.category = (1, 10000) := by decide
  have hpd : priceDeviation emptyListing = 1 := by
    rw [priceDeviation, medianPrice, hcr, show emptyListing.price = 0 from rfl]
    norm_num [mathAbs]
  rw [score, suspiciousness, wordsContribution, priceContribution, ratingContribution,
    zeroReviewsContribution, sellerContribution, noImagesContribution, hw, hsf, hic, hpd,
    show emptyListing.rating = 0 from rfl,
    show emptyListing.review_count = 0 from rfl]
  norm_num [mathMin]

theorem zeroReviewsContribution_emptyListing : zeroReviewsContribution emptyListing = 0.1 := by
  rw [zeroReviewsContribution, show emptyListing.review_count = 0 from rfl]
  norm_num

theorem noImagesContribution_emptyListing : noImagesContribution emptyListing = 0.1 := by
  rw [noImagesContribution, show imageCount emptyListing = 0 from rfl]
  norm_num

theorem priceContribution_emptyListing : priceContribution emptyListing = 0.2 := by
  have hcr : categoryRanges emptyListing.category = (1, 10000) := by decide
  have hpd : priceDeviation emptyListing = 1 := by
    rw [priceDeviation, medianPrice, hcr, show emptyListing.price = 0 from rfl]
    norm_num [mathAbs]
  rw [priceContribution, hpd]
  norm_num [mathMin]

theorem label_emptyListing (now : String) :
    (generateMockAnalysis emptyListing now).label = .suspicious := by
  norm_num [generateMockAnalysis, score_emptyListing]

theorem explanation_emptyListing (now : String) :
    (generateMockAnalysis emptyListing now).explanation =
      [⟨"price_deviation_from_median", 0.2⟩, ⟨"no_images", 0.1⟩] := by
  have hw : wordMatches emptyListing = 0 := by decide
  have hsf : sellerFlag emptyListing = false := by decide
  have hic : imageCount emptyListing = 0 := rfl
  have hcr : categoryRanges emptyListing.category = (1, 10000) := by decide
  have hpd : priceDeviation emptyListing = 1 := by
    rw [priceDeviation, medianPrice, hcr, show emptyListing.price = 0 from rfl]
    norm_num [mathAbs]
  rw [generateMockAnalysis]
  simp only [explanationEntries, hw, hsf, hic, hpd,
    show emptyListing.rating = 0 from rfl, show emptyListing.review_count = 0 from rfl]
  norm_num [mathMin, List.filter]

theorem explanation_unsortedListing (now : String) :
    (generateMockAnalysis unsortedListing now).explanation =
      [⟨"price_deviation_from_median", 0.05⟩, ⟨"suspicious_words_in_title", 0.15⟩] := by
  have hw : wordMatches unsortedListing = 1 := by decide
  have hsf : sellerFlag unsortedListing = false := by decide
  have hic : imageCount unsortedListing = 1 := rfl
  have hcr : categoryRanges unsortedListing.category = (200, 2000) := by decide
  have hpd : priceDeviation unsortedListing = 1/4 := by
    rw [priceDeviation, medianPrice, hcr, show unsortedListing.price = 825 from rfl]
    norm_num [mathAbs]
  rw [generateMockAnalysis]
  simp only [explanationEntries, hw, hsf, hic, hpd,
    show unsortedListing.rating = 4 from rfl, show unsortedListing.review_count = 100 from rfl]
  norm_num [mathMin, List.filter]

theorem score_perfectRatingListing : score perfectRatingListing = 0.25 := by
  have hw : wordMatches perfectRatingListing = 0 := by decide
  have hsf : sellerFlag perfectRatingListing = false := by decide
  have hic : imageCount perfectRatingListing = 1 := rfl
  have hcr : categoryRanges perfectRatingListing.category = (200, 2000) := by decide
  have hpd : priceDeviation perfectRatingListing = 0 := by
    rw [priceDeviation, medianPrice, hcr, show perfectRatingListing.price = 1100 from rfl]
    norm_num [mathAbs]
  rw [score, suspiciousness, wordsContribution, priceContribution, ratingContribution,
    zeroReviewsContribution, sellerContribution, noImagesContribution, hw, hsf, hic, hpd,
    show perfectRatingListing.rating = 5 from rfl,
    show perfectRatingListing.review_count = 0 from rfl]
  norm_num [mathMin]

theorem explanation_perfectRatingListing (now : String) :
    (generateMockAnalysis perfectRatingListing now).explanation =
      [⟨"perfect_rating_low_reviews", 0.15⟩] := by
  have hw : wordMatches perfectRatingListing = 0 := by decide
  have hsf : sellerFlag perfectRatingListing = false := by decide
  have hic : imageCount perfectRatingListing = 1 := rfl
  have hcr : categoryRanges perfectRatingListing.category = (200, 2000) := by decide
  have hpd : priceDeviation perfectRatingListing = 0 := by
    rw [priceDeviation, medianPrice, hcr, show perfectRatingListing.price = 1100 from rfl]
    norm_num [mathAbs]
  rw [generateMockAnalysis]
  simp only [explanationEntries, hw, hsf, hic, hpd,
    show perfectRatingListing.rating = 5 from rfl,
    show perfectRatingListing.review_count = 0 from rfl]
  norm_num [mathMin, List.filter]

theorem priceDeviation_overpricedListing : priceDeviation overpricedListing = 9979/21 := by
  have hcr : categoryRanges overpricedListing.category = (10, 200) := by decide
  rw [priceDeviation, medianPrice, hcr, show overpricedListing.price = 50000 from rfl]
  norm_num [mathAbs]

theorem priceContribution_overpricedListing : priceContribution overpricedListing = 0.2 := by
  rw [priceContribution, priceDeviation_overpricedListing]
  norm_num [mathMin]

theorem explanation_overpricedListing (now : String) :
    (generateMockAnalysis overpricedListing now).explanation =
      [⟨"price_deviation_from_median", 1⟩, ⟨"generic_seller_name", 0.1⟩] := by
  have hw : wordMatches overpricedListing = 0 := by decide
  have hsf : sellerFlag overpricedListing = true := by decide
  have hic : imageCount overpricedListing = 2 := rfl
  rw [generateMockAnalysis]
  simp only [explanationEntries, hw, hsf, hic, priceDeviation_overpricedListing,
    show overpricedListing.rating = 4 from rfl,
    show overpricedListing.review_count = 100 from rfl]
  norm_num [mathMin, List.filter]

theorem suspiciousness_allWordsListing : suspiciousness allWordsListing = 1.2 := by
  have hw : wordMatches allWordsListing = 8 := by decide
  have hsf : sellerFlag allWordsListing = false := by decide
  have hic : imageCount allWordsListing = 1 := rfl
  have hcr : categoryRanges allWordsListing.category = (200, 2000) := by decide
  have hpd : priceDeviation allWordsListing = 0 := by
    rw [priceDeviation, medianPrice, hcr, show allWordsListing.price = 1100 from rfl]
    norm_num [mathAbs]
  rw [suspiciousness, wordsContribution, priceContribution, ratingContribution,
    zeroReviewsContribution, sellerContribution, noImagesContribution, hw, hsf, hic, hpd,
    show allWordsListing.rating = 4 from rfl,
    show allWordsListing.review_count = 100 from rfl]
  norm_num [mathMin]

theorem wordsContribution_allWordsListing : wordsContribution allWordsListing = 1.2 := by
  have hw : wordMatches allWordsListing = 8 := by decide
  rw [wordsContribution, hw]
  norm_num

theorem score_stringImagesListing : score stringImagesListing = 0.1 := by
  have hw : wordMatches stringImagesListing = 0 := by decide
  have hsf : sellerFlag stringImagesListing = false := by decide
  have hic : imageCount stringImagesListing = 0 := rfl
  have hcr : categoryRanges stringImagesListing.category = (200, 2000) := by decide
  have hpd : priceDeviation stringImagesListing = 0 := by
    rw [priceDeviation, medianPrice, hcr, show stringImagesListing.price = 1100 from rfl]
    norm_num [mathAbs]
  rw [score, suspiciousness, wordsContribution, priceContribution, ratingContribution,
    zeroReviewsContribution, sellerContribution, noImagesContribution, hw, hsf, hic, hpd,
    show stringImagesListing.rating = 4.8 from rfl,
    show stringImagesListing.review_count = 5234 from rfl]
  norm_num [mathMin]

/-- C1: for every listing, the heuristic engine's returned label is derived
from the clamped score alone via the fixed half-open, left-inclusive
thresholds: safe below 0.4, suspicious in [0.4, 0.7), high_risk at or
above 0.7. -/
theorem C1_label_from_score_thresholds (data : Listing) (now : String) :
    ((generateMockAnalysis data now).score < 0.4 →
        (generateMockAnalysis data now).label = Label.safe) ∧
    (0.4 ≤ (generateMockAnalysis data now).score →
        (generateMockAnalysis data now).score < 0.7 →
        (generateMockAnalysis data now).label = Label.suspicious) ∧
    (0.7 ≤ (generateMockAnalysis data now).score →
        (generateMockAnalysis data now).label = Label.high_risk) := by
  have hs : (generateMockAnalysis data now).score = score data := rfl
  have hl : (generateMockAnalysis data now).label =
      (if score data < 0.4 then Label.safe
       else if score data < 0.7 then Label.suspicious else Label.high_risk) := rfl
  rw [hs, hl]
  refine ⟨?_, ?_, ?_⟩
  · intro h
    rw [if_pos h]
  · intro h1 h2
    rw [if_neg (by linarith), if_pos h2]
  · intro h
    rw [if_neg (by linarith), if_neg (by linarith)]

/-- Witness for C1: the benign listing scores 0, below 0.4, and is labelled
safe. -/
theorem C1_label_from_score_thresholds_witness :
    (generateMockAnalysis benignListing "t").label = Label.safe :=
  (C1_label_from_score_thresholds benignListing "t").1
    (by rw [show (generateMockAnalysis benignListing "t").score = score benignListing from rfl,
          score_benignListing]; norm_num)

/-- C2: for every listing the returned score lies in [0,1], while the raw
sum of contributions before clamping can exceed 1 (witnessed by a title
containing all eight vocabulary words, contributing 1.2 on its own). -/
theorem C2_score_bounded (data : Listing) (now : String) :
    (0 ≤ (generateMockAnalysis data now).score ∧
      (generateMockAnalysis data now).score ≤ 1) ∧
    ∃ d : Listing, 1 < suspiciousness d := by
  refine ⟨⟨score_nonneg data, score_le_one data⟩, ⟨allWordsListing, ?_⟩⟩
  rw [suspiciousness_allWordsListing]
  norm_num

/-- C3 counterexample: for `unsortedListing` the returned explanation is
[price-deviation 0.05, suspicious-words 0.15] — not in descending
contribution order. -/
theorem C3_counterexample_explanation_not_sorted :
    ¬ sortedByContributionDesc (generateMockAnalysis unsortedListing "t").explanation := by
  rw [explanation_unsortedListing]
  intro h
  have h1 := (List.pairwise_cons.mp h).1 ⟨"suspicious_words_in_title", 0.15⟩ (by simp)
  norm_num at h1

/-- C3 (amended): the engine does not sort the explanation; entries appear
in the fixed extractor-declaration order — the feature names of the
returned explanation always form a sublist of the declaration-order list —
and every retained entry has positive contribution; the engine is a pure
function, so identical inputs yield the identical ordering. -/
theorem C3_explanation_declaration_order (data : Listing) (now : String) :
    ((generateMockAnalysis data now).explanation.map fun e => e.feature).Sublist
        declaredFeatureOrder ∧
    ∀ e ∈ (generateMockAnalysis data now).explanation, 0 < e.contribution :=
  ⟨explanation_features_sublist data now, explanation_contribution_pos data now⟩

/-- Witness for C3 (amended), at the perfect-rating listing's single
explanation entry. -/
theorem C3_explanation_declaration_order_witness :
    0 < (FeatureContribution.mk "perfect_rating_low_reviews" 0.15).contribution :=
  (C3_explanation_declaration_order perfectRatingListing "t").2 _
    (by rw [explanation_perfectRatingListing]; exact List.mem_singleton_self _)

/-- C4 counterexample: at `perfectRatingListing` (rating 5, zero reviews)
both rating-family conditions fire and the score is 0.25, yet the returned
explanation has exactly one entry, `perfect_rating_low_reviews` — no
distinct zero-reviews feature is reported. -/
theorem C4_counterexample_zero_reviews_not_named :
    zeroReviewsContribution perfectRatingListing = 0.1 ∧
    ratingContribution perfectRatingListing = 0.15 ∧
    (generateMockAnalysis perfectRatingListing "t").score = 0.25 ∧
    (generateMockAnalysis perfectRatingListing "t").explanation =
      [⟨"perfect_rating_low_reviews", 0.15⟩] := by
  refine ⟨?_, ?_, ?_, explanation_perfectRatingListing "t"⟩
  · rw [zeroReviewsContribution, show perfectRatingListing.review_count = 0 from rfl]
    norm_num
  · rw [ratingContribution, if_pos ?_]
    constructor
    · rw [show perfectRatingListing.rating = 5 from rfl]
      norm_num
    · rw [show perfectRatingListing.review_count = 0 from rfl]
      norm_num
  · show score perfectRatingListing = 0.25
    exact score_perfectRatingListing

/-- C4 (amended): when `review_count = 0` the engine adds an independent 0.1
to the score on top of the 0.15 added when additionally `rating ≥ 4.9` (up
to 0.25 total from the family), but the result names only
`perfect_rating_low_reviews`: every explanation feature belongs to the five
declared names, and no zero-reviews feature exists among them. -/
theorem C4_rating_family_score_vs_explanation (data : Listing) (now : String)
    (h0 : data.review_count = 0) (h49 : 4.9 ≤ data.rating) :
    zeroReviewsContribution data = 0.1 ∧ ratingContribution data = 0.15 ∧
    (FeatureContribution.mk "perfect_rating_low_reviews" 0.15) ∈
      (generateMockAnalysis data now).explanation ∧
    ∀ e ∈ (generateMockAnalysis data now).explanation,
      e.feature ∈ declaredFeatureOrder := by
  have hcond : 4.9 ≤ data.rating ∧ data.review_count < 10 := ⟨h49, by rw [h0]; norm_num⟩
  refine ⟨by rw [zeroReviewsContribution, h0]; norm_num,
    by rw [ratingContribution, if_pos hcond], ?_, ?_⟩
  · have hex : (generateMockAnalysis data now).explanation =
        (explanationEntries data).filter fun e => 0 < e.contribution := rfl
    rw [hex, List.mem_filter]
    constructor
    · simp only [explanationEntries, if_pos hcond]
      simp
    · simp only [decide_eq_true_eq]
      norm_num
  · intro e he
    have hm : e.feature ∈ ((generateMockAnalysis data now).explanation.map
        fun e => e.feature) := List.mem_map_of_mem _ he
    exact (explanation_features_sublist data now).subset hm

/-- Witness for C4 (amended) at the perfect-rating listing. -/
theorem C4_rating_family_score_vs_explanation_witness :
    zeroReviewsContribution perfectRatingListing = 0.1 :=
  (C4_rating_family_score_vs_explanation perfectRatingListing "t" rfl
    (by rw [show perfectRatingListing.rating = 5 from rfl]; norm_num)).1

/-- C5 counterexample: on the spec's empty/default listing the engine's
score is 0.4 (not ≈ 0.2) and the label is `suspicious`, not `safe`: the
price-deviation extractor also fires, price 0 being at 100% deviation from
the default-category median. -/
theorem C5_counterexample_scenario4 :
    (generateMockAnalysis emptyListing "t").score = 0.4 ∧
    (generateMockAnalysis emptyListing "t").label = Label.suspicious ∧
    (generateMockAnalysis emptyListing "t").label ≠ Label.safe := by
  refine ⟨?_, label_emptyListing "t", ?_⟩
  · show score emptyListing = 0.4
    rw [score_emptyListing]
    norm_num
  · rw [label_emptyListing "t"]
    decide

/-- C5 (amended): the empty/default listing yields the zero-images (0.1),
zero-reviews (0.1) and full price-deviation (0.2) contributions; the score
is 0.4 and the label `suspicious` (0.4 is not below the 0.4 threshold); the
explanation lists only the price-deviation and no-images entries, the
zero-reviews contribution having no entry. -/
theorem C5_scenario4_actual (now : String) :
    priceContribution emptyListing = 0.2 ∧
    zeroReviewsContribution emptyListing = 0.1 ∧
    noImagesContribution emptyListing = 0.1 ∧
    (generateMockAnalysis emptyListing now).score = 0.4 ∧
    (generateMockAnalysis emptyListing now).label = Label.suspicious ∧
    (generateMockAnalysis emptyListing now).explanation =
      [⟨"price_deviation_from_median", 0.2⟩, ⟨"no_images", 0.1⟩] := by
  refine ⟨priceContribution_emptyListing, zeroReviewsContribution_emptyListing,
    noImagesContribution_emptyListing, ?_, label_emptyListing now,
    explanation_emptyListing now⟩
  show score emptyListing = 0.4
  rw [score_emptyListing]
  norm_num

theorem priceDeviation_unsortedListing : priceDeviation unsortedListing = 1/4 := by
  have hcr : categoryRanges unsortedListing.category = (200, 2000) := by decide
  rw [priceDeviation, medianPrice, hcr, show unsortedListing.price = 825 from rfl]
  norm_num [mathAbs]

/-- C6 counterexample: for the overpriced clothing listing the score receives
min(deviation × 0.2, 0.2) = 0.2 from the price extractor, but the returned
explanation entry for `price_deviation_from_median` carries 1 — the display
cap is `Math.min(·, 1)`, not the score's 0.2 cap, so the entry is not the
amount summed into the score. -/
theorem C6_counterexample_display_differs_from_score :
    priceContribution overpricedListing = 0.2 ∧
    (generateMockAnalysis overpricedListing "t").explanation =
      [⟨"price_deviation_from_median", 1⟩, ⟨"generic_seller_name", 0.1⟩] ∧
    (1 : ℚ) ≠ 0.2 :=
  ⟨priceContribution_overpricedListing, explanation_overpricedListing "t", by norm_num⟩

/-- C6 (amended): the rating, images and seller entries always carry exactly
their extractor's score contribution; the price and words entries carry the
raw value capped at 1 — min(deviation × 0.2, 1), min(wordMatches × 0.15, 1)
— which coincides with the score contribution only while deviation ≤ 1,
respectively wordMatches × 0.15 ≤ 1. -/
theorem C6_explanation_entry_values (data : Listing) (now : String) :
    ∀ e ∈ (generateMockAnalysis data now).explanation,
      (e.feature = "price_deviation_from_median" →
        e.contribution = mathMin (priceDeviation data * 0.2) 1 ∧
        (priceDeviation data ≤ 1 → e.contribution = priceContribution data)) ∧
      (e.feature = "suspicious_words_in_title" →
        e.contribution = mathMin (wordMatches data * 0.15) 1 ∧
        ((wordMatches data : ℚ) * 0.15 ≤ 1 →
          e.contribution = wordsContribution data)) ∧
      (e.feature = "perfect_rating_low_reviews" →
        e.contribution = ratingContribution data) ∧
      (e.feature = "no_images" → e.contribution = noImagesContribution data) ∧
      (e.feature = "generic_seller_name" →
        e.contribution = sellerContribution data) := by
  intro e he
  have hex : (generateMockAnalysis data now).explanation =
      (explanationEntries data).filter fun x => 0 < x.contribution := rfl
  rw [hex] at he
  have he2 := (List.mem_filter.mp he).1
  simp only [explanationEntries, List.mem_cons, List.not_mem_nil, or_false] at he2
  rcases he2 with rfl | rfl | rfl | rfl | rfl
  · refine ⟨fun _ => ⟨rfl, fun hdev => ?_⟩, fun h => by simp at h,
      fun h => by simp at h, fun h => by simp at h,
      fun h => by simp at h⟩
    show mathMin (priceDeviation data * 0.2) 1 = priceContribution data
    have hx : priceDeviation data * 0.2 ≤ 0.2 := by
      have := mul_le_mul_of_nonneg_right hdev (show (0:ℚ) ≤ 0.2 by norm_num)
      linarith
    rw [priceContribution]
    unfold mathMin
    rw [if_pos (show priceDeviation data * 0.2 ≤ 1 by linarith), if_pos hx]
  · refine ⟨fun h => by simp at h, fun _ => ⟨rfl, fun hw => ?_⟩,
      fun h => by simp at h, fun h => by simp at h,
      fun h => by simp at h⟩
    show mathMin ((wordMatches data : ℚ) * 0.15) 1 = wordsContribution data
    rw [wordsContribution]
    unfold mathMin
    rw [if_pos hw]
  · exact ⟨fun h => by simp at h, fun h => by simp at h,
      fun _ => rfl, fun h => by simp at h, fun h => by simp at h⟩
  · exact ⟨fun h => by simp at h, fun h => by simp at h,
      fun h => by simp at h, fun _ => rfl, fun h => by simp at h⟩
  · exact ⟨fun h => by simp at h, fun h => by simp at h,
      fun h => by simp at h, fun h => by simp at h, fun _ => rfl⟩

/-- Witness for C6 (amended): at `unsortedListing` (deviation 1/4 ≤ 1) the
price entry's 0.05 equals the price extractor's score contribution. -/
theorem C6_explanation_entry_values_witness :
    (FeatureContribution.mk "price_deviation_from_median" 0.05).contribution =
      priceContribution unsortedListing :=
  ((C6_explanation_entry_values unsortedListing "t"
      (FeatureContribution.mk "price_deviation_from_median" 0.05)
      (by rw [explanation_unsortedListing]; exact List.mem_cons_self _ _)).1
    rfl).2 (by rw [priceDeviation_unsortedListing]; norm_num)

/-- C7 counterexample: the suspicious-words extractor's score contribution
is not pre-capped to a 0.1–0.2 per-feature ceiling: with all eight
vocabulary words present it contributes 1.2 to the raw score. -/
theorem C7_counterexample_words_above_ceiling :
    wordsContribution allWordsListing = 1.2 ∧
    ¬ wordsContribution allWordsListing ≤ 0.2 := by
  refine ⟨wordsContribution_allWordsListing, ?_⟩
  rw [wordsContribution_allWordsListing]
  norm_num

/-- C7 (amended): every extractor's score contribution is non-negative and
bounded — price by its 0.2 cap, rating by 0.15, zero-reviews, seller and
images by 0.1 — while the suspicious-words contribution is bounded only by
the vocabulary size, at 8 × 0.15 = 1.2: no contribution grows arbitrarily
large, but the words signal exceeds the claimed 0.1–0.2 ceiling range. -/
theorem C7_contribution_bounds (data : Listing) :
    (0 ≤ wordsContribution data ∧ wordsContribution data ≤ 1.2) ∧
    (0 ≤ priceContribution data ∧ priceContribution data ≤ 0.2) ∧
    (0 ≤ ratingContribution data ∧ ratingContribution data ≤ 0.15) ∧
    (0 ≤ zeroReviewsContribution data ∧ zeroReviewsContribution data ≤ 0.1) ∧
    (0 ≤ sellerContribution data ∧ sellerContribution data ≤ 0.1) ∧
    (0 ≤ noImagesContribution data ∧ noImagesContribution data ≤ 0.1) :=
  ⟨⟨wordsContribution_nonneg data, wordsContribution_le_vocab_cap data⟩,
   ⟨priceContribution_nonneg data, priceContribution_le_cap data⟩,
   ⟨ratingContribution_nonneg data, ratingContribution_le_cap data⟩,
   ⟨zeroReviewsContribution_nonneg data, zeroReviewsContribution_le_cap data⟩,
   ⟨sellerContribution_nonneg data, sellerContribution_le_cap data⟩,
   ⟨noImagesContribution_nonneg data, noImagesContribution_le_cap data⟩⟩

/-- C9: whenever the remote backend fails at transport level (timeout
included) or answers non-2xx, `callMLService` returns exactly the local
heuristic engine's result — well-formed (score in [0,1], positive
explanation contributions) and tagged "v0.1-mock", distinct from the remote
engine's tag — and the failure is never surfaced: the caller receives an
`AnalysisResult` in every case. -/
theorem C9_backend_failure_falls_back (data : Listing) (now : String)
    (o : RemoteOutcome) (h : backendFailure o) :
    callMLService data now o = generateMockAnalysis data now ∧
    (callMLService data now o).model_version = "v0.1-mock" ∧
    "v0.1-mock" ≠ remoteModelVersion ∧
    0 ≤ (callMLService data now o).score ∧ (callMLService data now o).score ≤ 1 ∧
    ∀ e ∈ (callMLService data now o).explanation, 0 < e.contribution := by
  have heq : callMLService data now o = generateMockAnalysis data now := by
    cases o with
    | response status body =>
        simp only [callMLService]
        rw [if_neg h]
    | failure => rfl
  refine ⟨heq, ?_, by decide, ?_, ?_, ?_⟩
  · rw [heq]
    rfl
  · rw [heq]
    exact score_nonneg data
  · rw [heq]
    exact score_le_one data
  · rw [heq]
    exact explanation_contribution_pos data now

/-- Witness for C9: a transport failure at the benign listing falls back to
the heuristic result. -/
theorem C9_backend_failure_falls_back_witness :
    callMLService benignListing "t" RemoteOutcome.failure =
      generateMockAnalysis benignListing "t" :=
  (C9_backend_failure_falls_back benignListing "t" RemoteOutcome.failure trivial).1

theorem generateMockAnalysis_images_congr (d : Listing) (x : Option JsVal) (now : String)
    (h : imageCount { d with images := x } = imageCount d) :
    generateMockAnalysis { d with images := x } now = generateMockAnalysis d now := by
  unfold generateMockAnalysis score suspiciousness wordsContribution priceContribution
    ratingContribution zeroReviewsContribution sellerContribution noImagesContribution
    explanationEntries
  rw [h]
  rfl

/-- C10: a present but non-array `images` value is treated as zero images:
the 0.1 no-images contribution is added to the score, the `no_images` entry
appears in the explanation, and the whole result coincides with the one for
an absent images field and with the one for an empty images array. -/
theorem C10_non_array_images_as_zero (data : Listing) (now : String) (v : JsVal)
    (hv : data.images = some v) (hna : ∀ l, v ≠ JsVal.varr l) :
    imageCount data = 0 ∧ noImagesContribution data = 0.1 ∧
    FeatureContribution.mk "no_images" 0.1 ∈ (generateMockAnalysis data now).explanation ∧
    generateMockAnalysis data now = generateMockAnalysis { data with images := none } now ∧
    generateMockAnalysis data now =
      generateMockAnalysis { data with images := some (JsVal.varr []) } now := by
  have h0 : imageCount data = 0 := by
    unfold imageCount
    rw [hv]
    cases v with
    | varr l => exact absurd rfl (hna l)
    | vstr s => rfl
    | vnum q => rfl
    | vbool b => rfl
    | vnull => rfl
  have hni : noImagesContribution data = 0.1 := by
    rw [noImagesContribution, if_pos h0]
  refine ⟨h0, hni, ?_, ?_, ?_⟩
  · have hex : (generateMockAnalysis data now).explanation =
        (explanationEntries data).filter fun e => 0 < e.contribution := rfl
    rw [hex, List.mem_filter]
    constructor
    · simp only [explanationEntries, h0]
      simp
    · simp only [decide_eq_true_eq]
      norm_num
  · exact (generateMockAnalysis_images_congr data none now (by rw [h0]; rfl)).symm
  · exact (generateMockAnalysis_images_congr data (some (JsVal.varr [])) now
      (by rw [h0]; rfl)).symm

/-- Witness for C10 at a listing whose `images` field holds a string. -/
theorem C10_non_array_images_as_zero_witness :
    imageCount stringImagesListing = 0 :=
  (C10_non_array_images_as_zero stringImagesListing "t" (JsVal.vstr "x.jpg") rfl
    (fun _ h => JsVal.noConfusion h)).1

theorem postCond_eq_not_valid (b : RequestBody) :
    (!jsTruthy b.title || !typeofNumber b.price || !jsTruthy b.seller
      || b.rating.isNone || b.review_count.isNone) =
    !(jsTruthy b.title && typeofNumber b.price && jsTruthy b.seller &&
      b.rating.isSome && b.review_count.isSome) := by
  have h1 : b.rating.isNone = !b.rating.isSome := by cases b.rating <;> rfl
  have h2 : b.review_count.isNone = !b.review_count.isSome := by cases b.review_count <;> rfl
  rw [h1, h2]
  cases jsTruthy b.title <;> cases typeofNumber b.price <;> cases jsTruthy b.seller <;>
    cases b.rating.isSome <;> cases b.review_count.isSome <;> rfl

theorem mockJs_wrongTypedRatingBody :
    generateMockAnalysisJs wrongTypedRatingBody "t" =
      some ⟨0, Label.safe, [], "v0.1-mock", "t"⟩ := by
  have hw : (suspiciousWords.filter fun w =>
      jsIncludes (jsToLower "Nice Phone") w).length = 0 := by decide
  have hsel : (genericNames.any fun n => jsIncludes (jsToLower "Bob") n) = false := by decide
  have hcr : categoryRanges (categoryLookupKey (some (JsVal.vstr "electronics"))) =
      (200, 2000) := by decide
  have hge : jsGE (some (JsVal.vstr "n/a")) 4.9 = false := by decide
  have hlt : jsLT (some (JsVal.vnum 5)) 10 = true := by decide
  have hz : jsStrictEqZero (some (JsVal.vnum 5)) = false := by decide
  simp only [generateMockAnalysisJs, wrongTypedRatingBody, jsOrEmptyString,
    hw, hsel, hcr, hge, hlt, hz]
  norm_num [mathAbs, mathMin, List.filter]

/-- C8 counterexample: `wrongTypedRatingBody` has its required `rating`
field present but wrong-typed (the string "n/a"); the handler does not
reject it with a 400 — validation only tests `rating === undefined` — and
on backend failure the caller receives a 200 response with a scored
result. -/
theorem C8_counterexample_wrong_typed_not_rejected :
    wrongTypedRatingBody.rating = some (JsVal.vstr "n/a") ∧
    POST wrongTypedRatingBody "t" RemoteOutcome.failure =
      HttpResponse.ok ⟨0, Label.safe, [], "v0.1-mock", "t"⟩ ∧
    POST wrongTypedRatingBody "t" RemoteOutcome.failure ≠
      HttpResponse.badRequest "Missing or invalid required fields" := by
  have hval : (!jsTruthy wrongTypedRatingBody.title
      || !typeofNumber wrongTypedRatingBody.price
      || !jsTruthy wrongTypedRatingBody.seller || wrongTypedRatingBody.rating.isNone
      || wrongTypedRatingBody.review_count.isNone) = false := by decide
  have hc : callMLServiceJs wrongTypedRatingBody "t" RemoteOutcome.failure =
      some ⟨0, Label.safe, [], "v0.1-mock", "t"⟩ := mockJs_wrongTypedRatingBody
  have hpost : POST wrongTypedRatingBody "t" RemoteOutcome.failure =
      HttpResponse.ok ⟨0, Label.safe, [], "v0.1-mock", "t"⟩ := by
    simp [POST, hval, hc]
  refine ⟨rfl, hpost, ?_⟩
  rw [hpost]
  simp

/-- C8 (amended): a missing required field is always rejected with the 400
client error, before any scoring; rejection happens exactly when `title` is
falsy, `price` is not a number, `seller` is falsy, or `rating` or
`review_count` is undefined — so a defined but wrong-typed `rating` or
`review_count` (or a truthy non-string `title`/`seller`) passes validation;
and every validated body whose `title` and `seller` are strings receives a
200 response carrying a scored result, whatever the backend outcome. -/
theorem C8_validation_behaviour (b : RequestBody) (now : String) (o : RemoteOutcome) :
    ((b.title = none ∨ b.price = none ∨ b.seller = none ∨ b.rating = none ∨
        b.review_count = none) →
      POST b now o = HttpResponse.badRequest "Missing or invalid required fields") ∧
    ((jsTruthy b.title && typeofNumber b.price && jsTruthy b.seller &&
        b.rating.isSome && b.review_count.isSome) = false ↔
      POST b now o = HttpResponse.badRequest "Missing or invalid required fields") ∧
    ((jsTruthy b.title && typeofNumber b.price && jsTruthy b.seller &&
        b.rating.isSome && b.review_count.isSome) = true →
      (∃ s, b.title = some (JsVal.vstr s)) → (∃ s, b.seller = some (JsVal.vstr s)) →
      ∃ r, POST b now o = HttpResponse.ok r) := by
  have hbridge := postCond_eq_not_valid b
  have hbad : (jsTruthy b.title && typeofNumber b.price && jsTruthy b.seller &&
      b.rating.isSome && b.review_count.isSome) = false →
      POST b now o = HttpResponse.badRequest "Missing or invalid required fields" := by
    intro hv
    simp only [POST, hbridge, hv, Bool.not_false, if_true]
  have hnotbad : (jsTruthy b.title && typeofNumber b.price && jsTruthy b.seller &&
      b.rating.isSome && b.review_count.isSome) = true →
      POST b now o ≠ HttpResponse.badRequest "Missing or invalid required fields" := by
    intro hv
    cases hc : callMLServiceJs b now o <;>
      simp [POST, hbridge, hv, hc]
  refine ⟨?_, ⟨hbad, ?_⟩, ?_⟩
  · intro h
    apply hbad
    rcases h with h | h | h | h | h <;> simp [h, jsTruthy, typeofNumber]
  · intro hpost
    cases hv : (jsTruthy b.title && typeofNumber b.price && jsTruthy b.seller &&
      b.rating.isSome && b.review_count.isSome) with
    | false => rfl
    | true => exact absurd hpost (hnotbad hv)
  · intro hV hts hss
    obtain ⟨s, hs⟩ := hts
    obtain ⟨s2, hs2⟩ := hss
    have hp : ∃ q, b.price = some (JsVal.vnum q) := by
      have h2 : typeofNumber b.price = true := by
        rcases Bool.and_eq_true_iff.mp hV with ⟨h3, _⟩
        rcases Bool.and_eq_true_iff.mp h3 with ⟨h4, _⟩
        rcases Bool.and_eq_true_iff.mp h4 with ⟨h5, _⟩
        exact (Bool.and_eq_true_iff.mp h5).2
      match hpv : b.price with
      | some (.vnum q) => exact ⟨q, rfl⟩
      | none | some (.vstr _) | some (.vbool _) | some .vnull | some (.varr _) =>
        rw [hpv] at h2
        simp [typeofNumber] at h2
    obtain ⟨q, hq⟩ := hp
    have hm : ∃ m, generateMockAnalysisJs b now = some m := by
      simp only [generateMockAnalysisJs, hs, hs2, hq, jsOrEmptyString]
      exact ⟨_, rfl⟩
    obtain ⟨m, hmock⟩ := hm
    have hcall : ∃ r, callMLServiceJs b now o = some r := by
      cases o with
      | response status body =>
          simp only [callMLServiceJs]
          split_ifs with hst
          · exact ⟨body, rfl⟩
          · exact ⟨m, hmock⟩
      | failure => exact ⟨m, hmock⟩
    obtain ⟨r, hr⟩ := hcall
    refine ⟨r, ?_⟩
    simp only [POST, hbridge, hV, Bool.not_true, Bool.false_eq_true, if_false, hr]

/-- Witness for C8 (amended): the body missing its `rating` field is
rejected with the 400 client error. -/
theorem C8_validation_behaviour_witness :
    POST missingRatingBody "t" RemoteOutcome.failure =
      HttpResponse.badRequest "Missing or invalid required fields" :=
  (C8_validation_behaviour missingRatingBody "t" RemoteOutcome.failure).1
    (Or.inr (Or.inr (Or.inr (Or.inl rfl))))
